import Mathlib

/-!
Verification of the oss-tldr report caching and section-assembly engine.

The Python source is embedded shallowly:
* instants are integers counting microseconds since the epoch (Python
  `datetime` has microsecond resolution; `timedelta` arithmetic is exact
  integer arithmetic on microseconds);
* the `reports` database table is a `List Report`; SQLAlchemy queries are
  translated to list traversals;
* fallible code returns `Except`/`Option`;
* external collaborators (GitHub activity fetch, the LLM summarizer and
  aggregator) are parameters of the route functions, exactly as the spec
  treats them (black-box services).
-/

namespace OssTldr

/-- One day in microseconds (`timedelta(days=1)`). -/
def usPerDay : Int := 86400000000

/-- One hour in microseconds (`timedelta(hours=1)`). -/
def usPerHour : Int := 3600000000

/-- `now.replace(hour=0, minute=0, second=0, microsecond=0)` for a UTC
instant: the start of the current UTC calendar day.  `Int.emod` matches
Python's `%` (result sign follows the divisor). -/
def todayStart (now : Int) : Int := now - now % usPerDay

/-- Embedding of `utils/dates.py::resolve_timeframe`.  The current wall
clock `now` (microseconds) is an explicit argument; the Python raises
`ValueError` on an unknown token, modelled as `none`. -/
def resolve_timeframe (timeframe : String) (now : Int) : Option (Int × Int) :=
  let today_start := todayStart now
  if timeframe = "last_day" then
    some (today_start - usPerDay, today_start - 1)
  else if timeframe = "last_week" then
    some (today_start - 7 * usPerDay, today_start - 1)
  else if timeframe = "last_month" then
    some (today_start - 30 * usPerDay, today_start - 1)
  else if timeframe = "last_year" then
    some (today_start - 365 * usPerDay, today_start - 1)
  else
    none

end OssTldr

namespace OssTldr

/-- 2024-01-15 12:00:00 UTC in microseconds since epoch (the instant the
repository's own unit test `test_resolve_timeframe_boundaries` freezes). -/
def sampleNoon : Int := 19737 * usPerDay + 12 * usPerHour

theorem sampleNoon_todayStart : todayStart sampleNoon = 19737 * usPerDay := by
  decide

theorem rt_last_day (now : Int) :
    resolve_timeframe "last_day" now =
      some (todayStart now - usPerDay, todayStart now - 1) := by
  simp [resolve_timeframe]

theorem rt_last_week (now : Int) :
    resolve_timeframe "last_week" now =
      some (todayStart now - 7 * usPerDay, todayStart now - 1) := by
  simp [resolve_timeframe]

theorem rt_last_month (now : Int) :
    resolve_timeframe "last_month" now =
      some (todayStart now - 30 * usPerDay, todayStart now - 1) := by
  simp [resolve_timeframe]

theorem rt_last_year (now : Int) :
    resolve_timeframe "last_year" now =
      some (todayStart now - 365 * usPerDay, todayStart now - 1) := by
  simp [resolve_timeframe]

/-- Embedding of `models/github.py::GithubUser`. -/
structure GithubUser where
  login : String
  id : Nat
  avatar_url : String
  html_url : String
deriving DecidableEq, Repr

/-- Embedding of `models/github.py::GitHubItem` (timestamps as optional
microsecond instants). -/
structure GitHubItem where
  id : Nat
  number : Nat
  title : String
  body : String
  summary : Option String := none
  user : GithubUser
  html_url : String
  state : String
  created_at : Option Int := none
  updated_at : Option Int := none
  comments : Nat
  reactions : Nat
  labels : List String
  is_pull_request : Bool
  merged : Option Bool := some false
  assignees : Option (List GithubUser) := none
  author_association : Option String := none
deriving DecidableEq, Repr

/-- One element of the `people` section payload: the dictionary built by
`services/people_summary.py::generate_people_summaries`. -/
structure PersonSummary where
  username : String
  avatar_url : String
  profile_url : String
  tldr : String
  prs : List GitHubItem
  issues : List GitHubItem
  total_items : Nat
deriving DecidableEq, Repr

/-- `repositories/reports.py::SectionType = Literal["prs","issues","people","tldr"]`. -/
inductive SectionType where
  | prs
  | issues
  | people
  | tldr
deriving DecidableEq, Repr

/-- Column type of each section payload on the `reports` table: `prs`,
`issues` hold serialized `GitHubItem` lists, `people` a list of contributor
digests, `tldr` plain text (`tldr_text`). -/
def SectionTy : SectionType → Type
  | .prs => List GitHubItem
  | .issues => List GitHubItem
  | .people => List PersonSummary
  | .tldr => String

instance : (sec : SectionType) → DecidableEq (SectionTy sec)
  | .prs => inferInstanceAs (DecidableEq (List GitHubItem))
  | .issues => inferInstanceAs (DecidableEq (List GitHubItem))
  | .people => inferInstanceAs (DecidableEq (List PersonSummary))
  | .tldr => inferInstanceAs (DecidableEq String)

/-- Embedding of `database/models/report.py::Report`: one row of the
`reports` table.  Each of the four sections pairs a nullable payload column
with a nullable `*_generated_at` timestamp. -/
structure Report where
  id : Nat
  repository_id : Nat
  timeframe : String
  timeframe_start : Int
  timeframe_end : Int
  prs : Option (List GitHubItem) := none
  prs_generated_at : Option Int := none
  issues : Option (List GitHubItem) := none
  issues_generated_at : Option Int := none
  people : Option (List PersonSummary) := none
  people_generated_at : Option Int := none
  tldr_text : Option String := none
  tldr_generated_at : Option Int := none
  created_at : Int
  version : Nat := 2
deriving DecidableEq, Repr

/-- `getattr(report, column_name)` where `column_name` is the section
column (`tldr` is stored as `tldr_text`). -/
def Report.sectionData (r : Report) : (sec : SectionType) → Option (SectionTy sec)
  | .prs => r.prs
  | .issues => r.issues
  | .people => r.people
  | .tldr => r.tldr_text

/-- `getattr(report, f"{column_name}_generated_at")`. -/
def Report.sectionGeneratedAt (r : Report) : SectionType → Option Int
  | .prs => r.prs_generated_at
  | .issues => r.issues_generated_at
  | .people => r.people_generated_at
  | .tldr => r.tldr_generated_at

/-- The query shared by `get_or_create_report_record` and
`get_cached_section`: most recent `Report` row (by `created_at`, descending)
for the given repository and timeframe; `limit(1)`. Among equal
`created_at` values the row returned first is kept. -/
def latestReport (db : List Report) (repository_id : Nat) (timeframe : String) :
    Option Report :=
  (db.filter (fun r => r.repository_id == repository_id && r.timeframe == timeframe)).foldl
    (fun acc r =>
      match acc with
      | none => some r
      | some best => if r.created_at > best.created_at then some r else acc)
    none

/-- Embedding of `ReportsRepository.get_cached_section`: return the section
payload of the most recent report for (repository, timeframe) if set, `none`
if unset; unless `skip_expiration_check`, a payload whose `generated_at` is
set and older than one hour is reported as `none` (a `generated_at` of
`None` is falsy in the Python, so the expiration check is skipped). -/
def get_cached_section (db : List Report) (repository_id : Nat) (timeframe : String)
    (sec : SectionType) (skip_expiration_check : Bool) (now : Int) :
    Option (SectionTy sec) :=
  match latestReport db repository_id timeframe with
  | none => none
  | some report =>
    match report.sectionData sec with
    | none => none
    | some section_data =>
      if skip_expiration_check then
        some section_data
      else
        match report.sectionGeneratedAt sec with
        | none => some section_data
        | some section_timestamp =>
          if now - section_timestamp > usPerHour then none
          else some section_data

/-- The two `setattr` lines of `ReportsRepository.update_section`: set the
section's payload column and stamp its `generated_at` with the current
time. -/
def setSection (r : Report) (sec : SectionType) (data : SectionTy sec) (now : Int) :
    Report :=
  match sec, data with
  | .prs, d => { r with prs := some d, prs_generated_at := some now }
  | .issues, d => { r with issues := some d, issues_generated_at := some now }
  | .people, d => { r with people := some d, people_generated_at := some now }
  | .tldr, d => { r with tldr_text := some d, tldr_generated_at := some now }

/-- Embedding of `ReportsRepository.update_section`: look the report up by
primary key; raise (`ValueError`, the `ReportNotFound` condition) if no row
exists, otherwise write the section payload and timestamp in place and
return the updated row together with the updated table. -/
def update_section (db : List Report) (report_id : Nat) (sec : SectionType)
    (data : SectionTy sec) (now : Int) : Except String (List Report × Report) :=
  match db.find? (fun r => r.id == report_id) with
  | none => .error (s!"Report with ID {report_id} not found")
  | some report =>
    let updated := setSection report sec data now
    .ok (db.map (fun r => if r.id == report_id then updated else r), updated)

/-- Embedding of `ReportsRepository.get_or_create_report_record`: reuse the
most recent row for (repository, timeframe), or insert a fresh empty row
(sections unset, `version = 2`); `nextId` is the primary key the database
would assign, `now` the server-side `created_at`. -/
def get_or_create_report_record (db : List Report) (nextId : Nat)
    (repository_id : Nat) (timeframe : String)
    (timeframe_start timeframe_end : Int) (now : Int) : List Report × Report :=
  match latestReport db repository_id timeframe with
  | some report => (db, report)
  | none =>
    let report : Report :=
      { id := nextId, repository_id := repository_id, timeframe := timeframe,
        timeframe_start := timeframe_start, timeframe_end := timeframe_end,
        created_at := now, version := 2 }
    (db ++ [report], report)

/-- The `CACHE_EXPIRATION` table of `repositories/reports.py` (consulted
only by the legacy `create_report` path): timeframe-scaled TTLs. -/
def CACHE_EXPIRATION (timeframe : String) : Option Int :=
  if timeframe = "last_day" then some usPerHour
  else if timeframe = "last_week" then some (6 * usPerHour)
  else if timeframe = "last_month" then some usPerDay
  else if timeframe = "last_year" then some (7 * usPerDay)
  else none

/-- Embedding of the legacy `ReportsRepository.create_report` path.  It
computes `expires_at` from `CACHE_EXPIRATION`, then constructs
`Report(..., expires_at=expires_at)`.  No `Report` model in the source
declares an `expires_at` attribute (neither `database/models/report.py`,
the model in use, nor the shadowed legacy `database/models.py`), so the
SQLAlchemy declarative constructor raises `TypeError` on the unknown
keyword before any row is added to the session: the call always fails and
inserts nothing.  (`set_expiration` defaults to `True` in the source; it is
an explicit argument here.) -/
def create_report (db : List Report) (nextId : Nat) (repository_id : Nat)
    (timeframe : String) (timeframe_start timeframe_end : Int)
    (tldr_data : Option String) (prs_data issues_data : Option (List GitHubItem))
    (people_data : Option (List PersonSummary)) (now : Int)
    (set_expiration : Bool) : Except String (List Report × Report) :=
  let expires_at : Option Int :=
    if set_expiration then (CACHE_EXPIRATION timeframe).map (fun d => now + d)
    else none
  match expires_at with
  | _ => .error "expires_at is an invalid keyword argument for Report"

theorem setSection_data_self (r : Report) (sec : SectionType) (data : SectionTy sec)
    (now : Int) : (setSection r sec data now).sectionData sec = some data := by
  cases sec <;> rfl

theorem setSection_ts_self (r : Report) (sec : SectionType) (data : SectionTy sec)
    (now : Int) : (setSection r sec data now).sectionGeneratedAt sec = some now := by
  cases sec <;> rfl

theorem setSection_data_other (r : Report) (sec : SectionType) (data : SectionTy sec)
    (now : Int) (s2 : SectionType) (h : s2 ≠ sec) :
    (setSection r sec data now).sectionData s2 = r.sectionData s2 := by
  cases sec <;> cases s2 <;> first | rfl | exact absurd rfl h

theorem setSection_ts_other (r : Report) (sec : SectionType) (data : SectionTy sec)
    (now : Int) (s2 : SectionType) (h : s2 ≠ sec) :
    (setSection r sec data now).sectionGeneratedAt s2 = r.sectionGeneratedAt s2 := by
  cases sec <;> cases s2 <;> first | rfl | exact absurd rfl h

theorem setSection_meta (r : Report) (sec : SectionType) (data : SectionTy sec)
    (now : Int) :
    (setSection r sec data now).repository_id = r.repository_id ∧
    (setSection r sec data now).timeframe = r.timeframe ∧
    (setSection r sec data now).timeframe_start = r.timeframe_start ∧
    (setSection r sec data now).timeframe_end = r.timeframe_end ∧
    (setSection r sec data now).id = r.id ∧
    (setSection r sec data now).created_at = r.created_at := by
  cases sec <;> exact ⟨rfl, rfl, rfl, rfl, rfl, rfl⟩

/-- A report row for witnesses: empty sections, repository 1,
timeframe `last_week`. -/
def sampleReport : Report :=
  { id := 1, repository_id := 1, timeframe := "last_week",
    timeframe_start := 0, timeframe_end := 0, created_at := 0 }

/-- `[item.summary for item in items if item.summary]` membership test:
the summary is kept when it is set and non-empty (Python truthiness). -/
def summaryKept (item : GitHubItem) : Option String :=
  match item.summary with
  | some s => if s = "" then none else some s
  | none => none

/-- `cached_tldr[i : i + chunk_size]` slicing loop of the TL;DR cache-hit
path: cut the cached text into chunks of 50 characters. -/
def chunkChars (l : List Char) : List String :=
  if h : l = [] then []
  else String.mk (l.take 50) :: chunkChars (l.drop 50)
termination_by l.length
decreasing_by
  have hp : 0 < l.length := List.length_pos.mpr h
  simp only [List.length_drop]
  omega

def chunkText (s : String) : List String := chunkChars s.data

/-- Outcome of the `prs`/`issues` route handlers: response payload, the
`cached` flag, the reports table after the request, and the log of
`update_section` calls performed. -/
structure SectionRouteResult where
  data : List GitHubItem
  cached : Bool
  db : List Report
  writes : List (Nat × SectionType)
deriving DecidableEq, Repr

/-- Embedding of `api/routes/reports.py::get_prs_section`.  The external
fetch → rank → serialize → summarize pipeline is the parameter
`summarized_prs` (its result for this repository and date range); `nextId`
is the primary key the database would assign to a newly created report row.
The repository upsert and user-tracking side effects touch other tables and
are not part of the reports state modelled here.  Python's
`if cached_prs:` treats an empty cached list as falsy, i.e. as a miss. -/
def get_prs_section (db : List Report) (repo_record_id : Nat) (timeframe : String)
    (force : Bool) (summarized_prs : List GitHubItem) (nextId : Nat) (now : Int) :
    Except String SectionRouteResult :=
  match resolve_timeframe timeframe now with
  | none => .error "Failed to fetch PRs"
  | some (start_date, end_date) =>
    let cached_prs : Option (List GitHubItem) :=
      if force then none
      else get_cached_section db repo_record_id timeframe .prs false now
    let missResult : Except String SectionRouteResult :=
      let pair := get_or_create_report_record db nextId repo_record_id timeframe
        start_date end_date now
      match update_section pair.1 pair.2.id .prs summarized_prs now with
      | .ok (db2, _) =>
        .ok { data := summarized_prs, cached := false, db := db2,
              writes := [(pair.2.id, SectionType.prs)] }
      | .error _ => .error "Failed to fetch PRs"
    match cached_prs with
    | some cached_list =>
      if cached_list.isEmpty then missResult
      else .ok { data := cached_list, cached := true, db := db, writes := [] }
    | none => missResult

/-- Embedding of `api/routes/reports.py::get_issues_section` (identical to
the PRs handler with the `issues` section and item type). -/
def get_issues_section (db : List Report) (repo_record_id : Nat) (timeframe : String)
    (force : Bool) (summarized_issues : List GitHubItem) (nextId : Nat) (now : Int) :
    Except String SectionRouteResult :=
  match resolve_timeframe timeframe now with
  | none => .error "Failed to fetch Issues"
  | some (start_date, end_date) =>
    let cached_issues : Option (List GitHubItem) :=
      if force then none
      else get_cached_section db repo_record_id timeframe .issues false now
    let missResult : Except String SectionRouteResult :=
      let pair := get_or_create_report_record db nextId repo_record_id timeframe
        start_date end_date now
      match update_section pair.1 pair.2.id .issues summarized_issues now with
      | .ok (db2, _) =>
        .ok { data := summarized_issues, cached := false, db := db2,
              writes := [(pair.2.id, SectionType.issues)] }
      | .error _ => .error "Failed to fetch Issues"
    match cached_issues with
    | some cached_list =>
      if cached_list.isEmpty then missResult
      else .ok { data := cached_list, cached := true, db := db, writes := [] }
    | none => missResult

/-- Outcome of the streaming TL;DR handler: the text chunks yielded to the
client in order, the reports table afterwards, and the log of
`update_section` calls performed. -/
structure TldrStreamResult where
  chunks : List String
  db : List Report
  writes : List (Nat × SectionType)
deriving DecidableEq, Repr

/-- The inline error chunk yielded when a dependency is absent. -/
def depMissingMsg : String :=
  "\u26a0\ufe0f Error: PRs and Issues must be loaded before generating TL;DR"

/-- Embedding of `api/routes/reports.py::get_tldr_section`.  The streaming
aggregator (`tldr(..., stream=True)` over `"\n".join(summaries)`) is the
parameter `tldr_chunks`: the chunks it would yield; the handler forwards
them while accumulating their concatenation, which it persists once the
stream ends.  Python's `if cached_tldr:` treats an empty cached string as
falsy, i.e. as a miss. -/
def get_tldr_section (db : List Report) (repo_record_id : Nat) (timeframe : String)
    (force : Bool) (tldr_chunks : List String) (nextId : Nat) (now : Int) :
    TldrStreamResult :=
  match resolve_timeframe timeframe now with
  | none =>
    { chunks := ["\u26a0\ufe0f Error generating TL;DR: Invalid timeframe"],
      db := db, writes := [] }
  | some (start_date, end_date) =>
    let cached_tldr : Option String :=
      if force then none
      else get_cached_section db repo_record_id timeframe .tldr false now
    let missResult : TldrStreamResult :=
      let cached_prs_data := get_cached_section db repo_record_id timeframe .prs true now
      let cached_issues_data :=
        get_cached_section db repo_record_id timeframe .issues true now
      match cached_prs_data, cached_issues_data with
      | some prs_list, some issues_list =>
        let summaries :=
          prs_list.filterMap summaryKept ++ issues_list.filterMap summaryKept
        if summaries.isEmpty then { chunks := [], db := db, writes := [] }
        else
          let accumulated_text := String.join tldr_chunks
          let pair := get_or_create_report_record db nextId repo_record_id timeframe
            start_date end_date now
          match update_section pair.1 pair.2.id .tldr accumulated_text now with
          | .ok (db2, _) =>
            { chunks := tldr_chunks, db := db2,
              writes := [(pair.2.id, SectionType.tldr)] }
          | .error e =>
            { chunks := tldr_chunks ++ ["\u26a0\ufe0f Error generating TL;DR: " ++ e],
              db := db, writes := [] }
      | _, _ => { chunks := [depMissingMsg], db := db, writes := [] }
    match cached_tldr with
    | some t =>
      if t.isEmpty then missResult
      else { chunks := chunkText t, db := db, writes := [] }
    | none => missResult

end OssTldr

/-- C1: a section written at time T (via `update_section`, which stamps
`generated_at := T`) and read with `skip_expiration_check = False` returns
the cached payload at any instant before T + 60 minutes, and Missing
(`none`) at any instant strictly more than 60 minutes after T; the
threshold `timedelta(hours=1)` is one fixed constant, uniform in the
section and the timeframe (both universally quantified here). -/
theorem C1_freshness_boundary (db : List OssTldr.Report) (rid : Nat) (tf : String)
    (sec : OssTldr.SectionType) (r0 : OssTldr.Report) (p : OssTldr.SectionTy sec)
    (T now : Int)
    (h : OssTldr.latestReport db rid tf = some (OssTldr.setSection r0 sec p T)) :
    (now < T + OssTldr.usPerHour →
      OssTldr.get_cached_section db rid tf sec false now = some p) ∧
    (now > T + OssTldr.usPerHour →
      OssTldr.get_cached_section db rid tf sec false now = none) := by
  simp only [OssTldr.get_cached_section, h, OssTldr.setSection_data_self,
    OssTldr.setSection_ts_self, Bool.false_eq_true, if_false]
  constructor
  · intro hlt
    rw [if_neg (by omega)]
  · intro hgt
    rw [if_pos (by omega)]

/-- C1 witness: a `prs` payload written at time 0 is returned at 30 minutes
of age and Missing at 2 hours of age. -/
theorem C1_witness :
    OssTldr.get_cached_section
      [OssTldr.setSection OssTldr.sampleReport OssTldr.SectionType.prs [] 0]
      1 "last_week" OssTldr.SectionType.prs false (30 * 60000000) = some [] ∧
    OssTldr.get_cached_section
      [OssTldr.setSection OssTldr.sampleReport OssTldr.SectionType.prs [] 0]
      1 "last_week" OssTldr.SectionType.prs false (2 * OssTldr.usPerHour) = none :=
  ⟨(C1_freshness_boundary _ 1 "last_week" OssTldr.SectionType.prs OssTldr.sampleReport
      [] 0 (30 * 60000000) (by decide)).1 (by decide),
    (C1_freshness_boundary _ 1 "last_week" OssTldr.SectionType.prs OssTldr.sampleReport
      [] 0 (2 * OssTldr.usPerHour) (by decide)).2 (by decide)⟩

/-- C6: with `skip_expiration_check = True` an existing section payload is
returned whatever the current time and whatever (if anything) its
`generated_at` holds: the 60-minute rule is never consulted on the bypass
path. -/
theorem C6_bypass_ignores_age (db : List OssTldr.Report) (rid : Nat) (tf : String)
    (sec : OssTldr.SectionType) (r : OssTldr.Report) (p : OssTldr.SectionTy sec)
    (now : Int)
    (h : OssTldr.latestReport db rid tf = some r)
    (hp : r.sectionData sec = some p) :
    OssTldr.get_cached_section db rid tf sec true now = some p := by
  simp only [OssTldr.get_cached_section, h, hp, if_pos]

/-- C6 witness: a `prs` payload stamped at time 0 is still returned on the
bypass path one year later. -/
theorem C6_witness :
    OssTldr.get_cached_section
      [OssTldr.setSection OssTldr.sampleReport OssTldr.SectionType.prs [] 0]
      1 "last_week" OssTldr.SectionType.prs true (365 * OssTldr.usPerDay) = some [] :=
  C6_bypass_ignores_age _ 1 "last_week" OssTldr.SectionType.prs
    (OssTldr.setSection OssTldr.sampleReport OssTldr.SectionType.prs [] 0) []
    (365 * OssTldr.usPerDay) (by decide) (by decide)

/-- C8: `update_section` on an existing row sets exactly that section's
payload column and stamps that section's `generated_at` with the current
time; the other three sections' payloads and timestamps and the row's
`repository_id`, `timeframe`, `timeframe_start` and `timeframe_end` are
unchanged.  On a report id resolving to no row it fails with the
`ReportNotFound` error. -/
theorem C8_update_section_frame :
    (∀ (db : List OssTldr.Report) (report_id : Nat) (sec : OssTldr.SectionType)
        (data : OssTldr.SectionTy sec) (now : Int) (r : OssTldr.Report),
      db.find? (fun x => x.id == report_id) = some r →
      OssTldr.update_section db report_id sec data now =
        .ok (db.map (fun x => if x.id == report_id
               then OssTldr.setSection r sec data now else x),
             OssTldr.setSection r sec data now) ∧
      (OssTldr.setSection r sec data now).sectionData sec = some data ∧
      (OssTldr.setSection r sec data now).sectionGeneratedAt sec = some now ∧
      (∀ s2 : OssTldr.SectionType, s2 ≠ sec →
        (OssTldr.setSection r sec data now).sectionData s2 = r.sectionData s2 ∧
        (OssTldr.setSection r sec data now).sectionGeneratedAt s2 =
          r.sectionGeneratedAt s2) ∧
      (OssTldr.setSection r sec data now).repository_id = r.repository_id ∧
      (OssTldr.setSection r sec data now).timeframe = r.timeframe ∧
      (OssTldr.setSection r sec data now).timeframe_start = r.timeframe_start ∧
      (OssTldr.setSection r sec data now).timeframe_end = r.timeframe_end) ∧
    (∀ (db : List OssTldr.Report) (report_id : Nat) (sec : OssTldr.SectionType)
        (data : OssTldr.SectionTy sec) (now : Int),
      db.find? (fun x => x.id == report_id) = none →
      OssTldr.update_section db report_id sec data now =
        .error (s!"Report with ID {report_id} not found")) := by
  constructor
  · intro db report_id sec data now r hfind
    refine ⟨?_, OssTldr.setSection_data_self r sec data now,
      OssTldr.setSection_ts_self r sec data now,
      fun s2 hne => ⟨OssTldr.setSection_data_other r sec data now s2 hne,
        OssTldr.setSection_ts_other r sec data now s2 hne⟩,
      (OssTldr.setSection_meta r sec data now).1,
      (OssTldr.setSection_meta r sec data now).2.1,
      (OssTldr.setSection_meta r sec data now).2.2.1,
      (OssTldr.setSection_meta r sec data now).2.2.2.1⟩
    simp only [OssTldr.update_section, hfind]
  · intro db report_id sec data now hfind
    simp only [OssTldr.update_section, hfind]

/-- C8 witness: updating the `prs` section of the sample report row by id
succeeds and returns the row with only that section's two columns changed;
updating against an empty table fails with the not-found error. -/
theorem C8_witness :
    (OssTldr.update_section [OssTldr.sampleReport] 1 OssTldr.SectionType.prs [] 5 =
      .ok ([OssTldr.setSection OssTldr.sampleReport OssTldr.SectionType.prs [] 5],
        OssTldr.setSection OssTldr.sampleReport OssTldr.SectionType.prs [] 5)) ∧
    (OssTldr.update_section ([] : List OssTldr.Report) 1 OssTldr.SectionType.prs [] 5 =
      .error "Report with ID 1 not found") := by
  constructor
  · have h := (C8_update_section_frame.1 [OssTldr.sampleReport] 1
      OssTldr.SectionType.prs [] 5 OssTldr.sampleReport (by decide)).1
    rw [h]
    rfl
  · exact C8_update_section_frame.2 [] 1 OssTldr.SectionType.prs [] 5 (by decide)

/-- C10 counterexample: the legacy `create_report` path does not produce a
row with payloads set and per-section timestamps null — at a concrete
input it raises `TypeError` (the `expires_at` keyword matches no model
attribute) and inserts nothing. -/
theorem C10_counterexample :
    OssTldr.create_report [] 1 1 "last_week" 0 0 none (some []) none none 0 true =
      .error "expires_at is an invalid keyword argument for Report" := rfl

/-- C10 (amended): a section payload whose `generated_at` column is null is
returned by `get_cached_section` even with `skip_expiration_check = False`,
at any current time — the freshness check is silently skipped (the
timestamp is falsy), so such a section never expires.  The legacy
`create_report` path, however, cannot produce such rows, or any rows: it
passes an `expires_at` keyword that no `Report` model defines, so it always
raises `TypeError` and inserts nothing. -/
theorem C10_null_timestamp_never_expires :
    (∀ (db : List OssTldr.Report) (rid : Nat) (tf : String)
        (sec : OssTldr.SectionType) (r : OssTldr.Report) (p : OssTldr.SectionTy sec)
        (now : Int),
      OssTldr.latestReport db rid tf = some r →
      r.sectionData sec = some p →
      r.sectionGeneratedAt sec = none →
      OssTldr.get_cached_section db rid tf sec false now = some p) ∧
    (∀ (db : List OssTldr.Report) (nextId rid : Nat) (tf : String)
        (ts te : Int) (tldr_data : Option String)
        (prs_data issues_data : Option (List OssTldr.GitHubItem))
        (people_data : Option (List OssTldr.PersonSummary)) (now : Int)
        (set_expiration : Bool),
      OssTldr.create_report db nextId rid tf ts te tldr_data prs_data issues_data
        people_data now set_expiration =
          .error "expires_at is an invalid keyword argument for Report") := by
  constructor
  · intro db rid tf sec r p now h hp ht
    simp only [OssTldr.get_cached_section, h, hp, ht, Bool.false_eq_true, if_false]
  · intro db nextId rid tf ts te tldr_data prs_data issues_data people_data now se
    rfl

/-- C10 witness: a row whose `prs` payload is set and whose
`prs_generated_at` is null is returned with the expiration check enabled a
year later; and `create_report` fails at a concrete input. -/
theorem C10_witness :
    OssTldr.get_cached_section [{ OssTldr.sampleReport with prs := some [] }]
      1 "last_week" OssTldr.SectionType.prs false (365 * OssTldr.usPerDay) =
        some [] ∧
    OssTldr.create_report [] 2 1 "last_day" 0 0 none none none none 0 false =
      .error "expires_at is an invalid keyword argument for Report" :=
  ⟨C10_null_timestamp_never_expires.1
      [{ OssTldr.sampleReport with prs := some [] }] 1 "last_week"
      OssTldr.SectionType.prs { OssTldr.sampleReport with prs := some [] }
      [] (365 * OssTldr.usPerDay) (by decide) (by decide) (by decide),
    C10_null_timestamp_never_expires.2 [] 2 1 "last_day" 0 0 none none none none 0
      false⟩

/-- C3 counterexample: at 2024-01-15 12:00 UTC, `resolve_timeframe "last_day"`
returns an end bound of `today 00:00 UTC minus one microsecond`
(23:59:59.999999 of the previous day), not `today 00:00 UTC` as the claim
states. -/
theorem C3_counterexample :
    (OssTldr.resolve_timeframe "last_day" OssTldr.sampleNoon).map Prod.snd =
      some (OssTldr.todayStart OssTldr.sampleNoon - 1) ∧
    OssTldr.todayStart OssTldr.sampleNoon - 1 ≠
      OssTldr.todayStart OssTldr.sampleNoon := by
  constructor
  · decide
  · decide

/-- C3 (amended): for every instant, `resolve_timeframe` anchors the interval
at the start of the current UTC day: `last_day` gives
[yesterday 00:00, today 00:00 − 1µs], `last_week` [today−7d, today 00:00 − 1µs],
`last_month` [today−30d, today 00:00 − 1µs], `last_year`
[today−365d, today 00:00 − 1µs]; the end bound is one microsecond before
today 00:00 UTC (yesterday 23:59:59.999999), identical for all four tokens. -/
theorem C3_resolve_timeframe_boundaries (now : Int) :
    OssTldr.resolve_timeframe "last_day" now =
      some (OssTldr.todayStart now - OssTldr.usPerDay, OssTldr.todayStart now - 1) ∧
    OssTldr.resolve_timeframe "last_week" now =
      some (OssTldr.todayStart now - 7 * OssTldr.usPerDay, OssTldr.todayStart now - 1) ∧
    OssTldr.resolve_timeframe "last_month" now =
      some (OssTldr.todayStart now - 30 * OssTldr.usPerDay, OssTldr.todayStart now - 1) ∧
    OssTldr.resolve_timeframe "last_year" now =
      some (OssTldr.todayStart now - 365 * OssTldr.usPerDay, OssTldr.todayStart now - 1) :=
  ⟨OssTldr.rt_last_day now, OssTldr.rt_last_week now,
    OssTldr.rt_last_month now, OssTldr.rt_last_year now⟩

/-- C7: `resolve_timeframe` is a function of the current UTC calendar day
only: two calls whose wall-clock instants share a UTC day (equal
`todayStart`) return identical intervals for each of the four tokens, and
two calls on consecutive UTC days (the second day's start one day after the
first's) return intervals whose start and end bounds each shift by exactly
one day. -/
theorem C7_resolve_timeframe_day_determinism (tok : String) (now1 now2 : Int)
    (htok : tok = "last_day" ∨ tok = "last_week" ∨ tok = "last_month" ∨ tok = "last_year") :
    (OssTldr.todayStart now1 = OssTldr.todayStart now2 →
      OssTldr.resolve_timeframe tok now1 = OssTldr.resolve_timeframe tok now2) ∧
    (OssTldr.todayStart now2 = OssTldr.todayStart now1 + OssTldr.usPerDay →
      ∃ s1 e1 s2 e2,
        OssTldr.resolve_timeframe tok now1 = some (s1, e1) ∧
        OssTldr.resolve_timeframe tok now2 = some (s2, e2) ∧
        s2 = s1 + OssTldr.usPerDay ∧ e2 = e1 + OssTldr.usPerDay) := by
  rcases htok with h | h | h | h <;> subst h
  · exact ⟨fun hday => by rw [OssTldr.rt_last_day, OssTldr.rt_last_day, hday], fun hday =>
      ⟨OssTldr.todayStart now1 - OssTldr.usPerDay, OssTldr.todayStart now1 - 1,
        OssTldr.todayStart now2 - OssTldr.usPerDay, OssTldr.todayStart now2 - 1,
        OssTldr.rt_last_day now1, OssTldr.rt_last_day now2,
        by rw [hday]; ring, by rw [hday]; ring⟩⟩
  · exact ⟨fun hday => by rw [OssTldr.rt_last_week, OssTldr.rt_last_week, hday], fun hday =>
      ⟨OssTldr.todayStart now1 - 7 * OssTldr.usPerDay, OssTldr.todayStart now1 - 1,
        OssTldr.todayStart now2 - 7 * OssTldr.usPerDay, OssTldr.todayStart now2 - 1,
        OssTldr.rt_last_week now1, OssTldr.rt_last_week now2,
        by rw [hday]; ring, by rw [hday]; ring⟩⟩
  · exact ⟨fun hday => by rw [OssTldr.rt_last_month, OssTldr.rt_last_month, hday], fun hday =>
      ⟨OssTldr.todayStart now1 - 30 * OssTldr.usPerDay, OssTldr.todayStart now1 - 1,
        OssTldr.todayStart now2 - 30 * OssTldr.usPerDay, OssTldr.todayStart now2 - 1,
        OssTldr.rt_last_month now1, OssTldr.rt_last_month now2,
        by rw [hday]; ring, by rw [hday]; ring⟩⟩
  · exact ⟨fun hday => by rw [OssTldr.rt_last_year, OssTldr.rt_last_year, hday], fun hday =>
      ⟨OssTldr.todayStart now1 - 365 * OssTldr.usPerDay, OssTldr.todayStart now1 - 1,
        OssTldr.todayStart now2 - 365 * OssTldr.usPerDay, OssTldr.todayStart now2 - 1,
        OssTldr.rt_last_year now1, OssTldr.rt_last_year now2,
        by rw [hday]; ring, by rw [hday]; ring⟩⟩

/-- C7 witness: two instants inside 2024-01-15 UTC give identical intervals,
and an instant on 2024-01-16 shifts both bounds by one day. -/
theorem C7_witness :
    ("last_week" = "last_day" ∨ "last_week" = "last_week" ∨
      "last_week" = "last_month" ∨ "last_week" = "last_year") ∧
    (OssTldr.resolve_timeframe "last_week" OssTldr.sampleNoon =
      OssTldr.resolve_timeframe "last_week" (OssTldr.sampleNoon + OssTldr.usPerHour)) ∧
    (∃ s1 e1 s2 e2,
      OssTldr.resolve_timeframe "last_week" OssTldr.sampleNoon = some (s1, e1) ∧
      OssTldr.resolve_timeframe "last_week" (OssTldr.sampleNoon + OssTldr.usPerDay) = some (s2, e2) ∧
      s2 = s1 + OssTldr.usPerDay ∧ e2 = e1 + OssTldr.usPerDay) := by
  have h := C7_resolve_timeframe_day_determinism "last_week" OssTldr.sampleNoon
    (OssTldr.sampleNoon + OssTldr.usPerHour) (Or.inr (Or.inl rfl))
  have h2 := C7_resolve_timeframe_day_determinism "last_week" OssTldr.sampleNoon
    (OssTldr.sampleNoon + OssTldr.usPerDay) (Or.inr (Or.inl rfl))
  refine ⟨Or.inr (Or.inl rfl), h.1 (by decide), h2.2 (by decide)⟩

/-- C2: requesting the TL;DR when the `prs` and `issues` sections are both
Missing (and no cached TL;DR text exists) yields only the
dependency-missing error chunk, leaves the reports table untouched and
performs no `update_section` call. -/
theorem C2_tldr_dependency_missing (db : List OssTldr.Report) (rid : Nat)
    (tf : String) (force : Bool) (tldr_chunks : List String) (nextId : Nat)
    (now : Int)
    (htf : tf = "last_day" ∨ tf = "last_week" ∨ tf = "last_month" ∨ tf = "last_year")
    (htldr : OssTldr.get_cached_section db rid tf OssTldr.SectionType.tldr false now = none)
    (hprs : OssTldr.get_cached_section db rid tf OssTldr.SectionType.prs true now = none)
    (hiss : OssTldr.get_cached_section db rid tf OssTldr.SectionType.issues true now = none) :
    OssTldr.get_tldr_section db rid tf force tldr_chunks nextId now =
      { chunks := [OssTldr.depMissingMsg], db := db, writes := [] } := by
  rcases htf with h | h | h | h <;> subst h <;> cases force <;>
    simp [OssTldr.get_tldr_section, OssTldr.rt_last_day, OssTldr.rt_last_week,
      OssTldr.rt_last_month, OssTldr.rt_last_year, htldr, hprs, hiss]

/-- C2 witness: against an empty reports table the TL;DR request emits only
the dependency-missing chunk and writes nothing. -/
theorem C2_witness :
    OssTldr.get_tldr_section [] 1 "last_week" false ["chunk"] 1 0 =
      { chunks := [OssTldr.depMissingMsg], db := [], writes := [] } :=
  C2_tldr_dependency_missing [] 1 "last_week" false ["chunk"] 1 0
    (Or.inr (Or.inl rfl)) (by decide) (by decide) (by decide)

/-- C9: when the `prs` and `issues` sections both exist but the collected
item summaries are empty (for instance both sections are empty sequences),
the TL;DR generation emits no chunks and performs no write: the reports
table — in particular `tldr_text` and `tldr_generated_at` — is unchanged
and `update_section` is never called. -/
theorem C9_tldr_empty_corpus (db : List OssTldr.Report) (rid : Nat) (tf : String)
    (force : Bool) (tldr_chunks : List String) (nextId : Nat) (now : Int)
    (prs_list issues_list : List OssTldr.GitHubItem)
    (htf : tf = "last_day" ∨ tf = "last_week" ∨ tf = "last_month" ∨ tf = "last_year")
    (htldr : OssTldr.get_cached_section db rid tf OssTldr.SectionType.tldr false now = none)
    (hprs : OssTldr.get_cached_section db rid tf OssTldr.SectionType.prs true now = some prs_list)
    (hiss : OssTldr.get_cached_section db rid tf OssTldr.SectionType.issues true now = some issues_list)
    (hsum : prs_list.filterMap OssTldr.summaryKept ++
      issues_list.filterMap OssTldr.summaryKept = []) :
    OssTldr.get_tldr_section db rid tf force tldr_chunks nextId now =
      { chunks := [], db := db, writes := [] } := by
  rcases htf with h | h | h | h <;> subst h <;> cases force <;>
    simp [OssTldr.get_tldr_section, OssTldr.rt_last_day, OssTldr.rt_last_week,
      OssTldr.rt_last_month, OssTldr.rt_last_year, htldr, hprs, hiss, hsum]

/-- C9 witness: a report whose `prs` and `issues` are cached empty
sequences produces a TL;DR stream with no chunks and no write. -/
theorem C9_witness :
    OssTldr.get_tldr_section
      [{ OssTldr.sampleReport with prs := some [], issues := some [] }]
      1 "last_week" false ["chunk"] 1 0 =
      { chunks := [],
        db := [{ OssTldr.sampleReport with prs := some [], issues := some [] }],
        writes := [] } :=
  C9_tldr_empty_corpus
    [{ OssTldr.sampleReport with prs := some [], issues := some [] }]
    1 "last_week" false ["chunk"] 1 0 [] []
    (Or.inr (Or.inl rfl)) (by decide) (by decide) (by decide) (by decide)

namespace OssTldr

theorem latestReport_singleton (r : Report) (rid : Nat) (tf : String)
    (h1 : r.repository_id = rid) (h2 : r.timeframe = tf) :
    latestReport [r] rid tf = some r := by
  simp [latestReport, h1, h2, List.filter, List.foldl]

/-- The row `get_or_create_report_record` inserts when no report exists. -/
def newReportRow (nextId rid : Nat) (tf : String) (s e now : Int) : Report :=
  { id := nextId, repository_id := rid, timeframe := tf, timeframe_start := s,
    timeframe_end := e, created_at := now, version := 2 }

theorem get_or_create_empty (nextId rid : Nat) (tf : String) (s e now : Int) :
    get_or_create_report_record [] nextId rid tf s e now =
      ([newReportRow nextId rid tf s e now], newReportRow nextId rid tf s e now) := rfl

theorem get_cached_prs_singleton_fresh (r : Report) (rid : Nat) (tf : String)
    (p : List GitHubItem) (ts now : Int)
    (h1 : r.repository_id = rid) (h2 : r.timeframe = tf)
    (hp : r.prs = some p) (ht : r.prs_generated_at = some ts)
    (hage : ¬ now - ts > usPerHour) :
    get_cached_section [r] rid tf .prs false now = some p := by
  simp [get_cached_section, latestReport_singleton r rid tf h1 h2,
    Report.sectionData, Report.sectionGeneratedAt, hp, ht, hage]

theorem get_cached_issues_singleton_fresh (r : Report) (rid : Nat) (tf : String)
    (p : List GitHubItem) (ts now : Int)
    (h1 : r.repository_id = rid) (h2 : r.timeframe = tf)
    (hp : r.issues = some p) (ht : r.issues_generated_at = some ts)
    (hage : ¬ now - ts > usPerHour) :
    get_cached_section [r] rid tf .issues false now = some p := by
  simp [get_cached_section, latestReport_singleton r rid tf h1 h2,
    Report.sectionData, Report.sectionGeneratedAt, hp, ht, hage]

theorem get_prs_section_empty_db (rid nextId : Nat) (tf : String)
    (summarized : List GitHubItem) (now s e : Int)
    (hres : resolve_timeframe tf now = some (s, e)) :
    get_prs_section [] rid tf false summarized nextId now =
      .ok { data := summarized, cached := false,
            db := [setSection (newReportRow nextId rid tf s e now) .prs summarized now],
            writes := [(nextId, SectionType.prs)] } := by
  simp [get_prs_section, hres, get_cached_section, latestReport,
    get_or_create_report_record, update_section, newReportRow, List.find?]

theorem get_issues_section_empty_db (rid nextId : Nat) (tf : String)
    (summarized : List GitHubItem) (now s e : Int)
    (hres : resolve_timeframe tf now = some (s, e)) :
    get_issues_section [] rid tf false summarized nextId now =
      .ok { data := summarized, cached := false,
            db := [setSection (newReportRow nextId rid tf s e now) .issues summarized now],
            writes := [(nextId, SectionType.issues)] } := by
  simp [get_issues_section, hres, get_cached_section, latestReport,
    get_or_create_report_record, update_section, newReportRow, List.find?]

theorem get_prs_section_empty_cached_regenerates (r : Report) (rid nextId : Nat)
    (tf : String) (summarized : List GitHubItem) (now2 s2 e2 : Int)
    (h1 : r.repository_id = rid) (h2 : r.timeframe = tf) (h3 : r.id = nextId)
    (hres : resolve_timeframe tf now2 = some (s2, e2))
    (hcache : get_cached_section [r] rid tf .prs false now2 = some []) :
    get_prs_section [r] rid tf false summarized nextId now2 =
      .ok { data := summarized, cached := false,
            db := [setSection r .prs summarized now2],
            writes := [(r.id, SectionType.prs)] } := by
  simp [get_prs_section, hres, hcache, get_or_create_report_record,
    latestReport_singleton r rid tf h1 h2, update_section, List.find?, h3]

theorem get_issues_section_empty_cached_regenerates (r : Report) (rid nextId : Nat)
    (tf : String) (summarized : List GitHubItem) (now2 s2 e2 : Int)
    (h1 : r.repository_id = rid) (h2 : r.timeframe = tf) (h3 : r.id = nextId)
    (hres : resolve_timeframe tf now2 = some (s2, e2))
    (hcache : get_cached_section [r] rid tf .issues false now2 = some []) :
    get_issues_section [r] rid tf false summarized nextId now2 =
      .ok { data := summarized, cached := false,
            db := [setSection r .issues summarized now2],
            writes := [(r.id, SectionType.issues)] } := by
  simp [get_issues_section, hres, hcache, get_or_create_report_record,
    latestReport_singleton r rid tf h1 h2, update_section, List.find?, h3]

end OssTldr

namespace OssTldr

theorem rt_valid (tf : String) (t : Int)
    (htf : tf = "last_day" ∨ tf = "last_week" ∨ tf = "last_month" ∨ tf = "last_year") :
    ∃ s e, resolve_timeframe tf t = some (s, e) := by
  rcases htf with h | h | h | h <;> subst h
  · exact ⟨_, _, rt_last_day t⟩
  · exact ⟨_, _, rt_last_week t⟩
  · exact ⟨_, _, rt_last_month t⟩
  · exact ⟨_, _, rt_last_year t⟩

end OssTldr

/-- C4 counterexample: with zero activity items, the first `prs` request
(time 0, empty table) caches an empty sequence; at the same instant —
inside the freshness window — the cached empty sequence exists
(`isSome = true`), yet the second non-forced request is *not* a cache hit:
it returns `cached = false` and performs one `update_section` write,
contradicting the claim's cache-hit behaviour. -/
theorem C4_counterexample :
    ((OssTldr.get_prs_section [] 1 "last_week" false [] 1 0).toOption.bind (fun r1 =>
      (OssTldr.get_prs_section r1.db 1 "last_week" false [] 1 0).toOption.map (fun r2 =>
        ((OssTldr.get_cached_section r1.db 1 "last_week"
            OssTldr.SectionType.prs false 0).isSome,
          r2.cached, r2.writes.length)))) = some (true, false, 1) := by
  decide

/-- C4 (amended): with zero activity items the `prs` (resp. `issues`)
pipeline writes an empty sequence with a fresh `generated_at` timestamp,
and `get_cached_section` then returns this empty sequence (distinct from
Missing); but a subsequent non-forced request within the freshness window
treats the cached empty sequence as a miss — the route's truthiness check
`if cached_prs:` is false for an empty list — so it returns
`cached = false` and re-runs the generation pipeline, writing again. -/
theorem C4_empty_activity_not_a_cache_hit (rid nextId : Nat) (tf : String)
    (now now2 : Int)
    (htf : tf = "last_day" ∨ tf = "last_week" ∨ tf = "last_month" ∨ tf = "last_year")
    (hwin : now2 - now ≤ OssTldr.usPerHour) :
    ∃ res1 res2 res3 res4,
      OssTldr.get_prs_section [] rid tf false [] nextId now = .ok res1 ∧
      res1.cached = false ∧
      (∃ r, res1.db = [r] ∧ r.prs = some [] ∧ r.prs_generated_at = some now ∧
        OssTldr.get_cached_section res1.db rid tf OssTldr.SectionType.prs false now2 =
          some []) ∧
      OssTldr.get_prs_section res1.db rid tf false [] nextId now2 = .ok res2 ∧
      res2.cached = false ∧ res2.writes = [(nextId, OssTldr.SectionType.prs)] ∧
      OssTldr.get_issues_section [] rid tf false [] nextId now = .ok res3 ∧
      res3.cached = false ∧
      (∃ r, res3.db = [r] ∧ r.issues = some [] ∧ r.issues_generated_at = some now ∧
        OssTldr.get_cached_section res3.db rid tf OssTldr.SectionType.issues false now2 =
          some []) ∧
      OssTldr.get_issues_section res3.db rid tf false [] nextId now2 = .ok res4 ∧
      res4.cached = false ∧ res4.writes = [(nextId, OssTldr.SectionType.issues)] := by
  obtain ⟨s1, e1, hres1⟩ := OssTldr.rt_valid tf now htf
  obtain ⟨s2, e2, hres2⟩ := OssTldr.rt_valid tf now2 htf
  have hcP := OssTldr.get_cached_prs_singleton_fresh
    (OssTldr.setSection (OssTldr.newReportRow nextId rid tf s1 e1 now)
      OssTldr.SectionType.prs [] now)
    rid tf [] now now2 rfl rfl rfl rfl (by omega)
  have hcI := OssTldr.get_cached_issues_singleton_fresh
    (OssTldr.setSection (OssTldr.newReportRow nextId rid tf s1 e1 now)
      OssTldr.SectionType.issues [] now)
    rid tf [] now now2 rfl rfl rfl rfl (by omega)
  have e2P := OssTldr.get_prs_section_empty_cached_regenerates
    (OssTldr.setSection (OssTldr.newReportRow nextId rid tf s1 e1 now)
      OssTldr.SectionType.prs [] now)
    rid nextId tf [] now2 s2 e2 rfl rfl rfl hres2 hcP
  have e2I := OssTldr.get_issues_section_empty_cached_regenerates
    (OssTldr.setSection (OssTldr.newReportRow nextId rid tf s1 e1 now)
      OssTldr.SectionType.issues [] now)
    rid nextId tf [] now2 s2 e2 rfl rfl rfl hres2 hcI
  exact ⟨_, _, _, _,
    OssTldr.get_prs_section_empty_db rid nextId tf [] now s1 e1 hres1, rfl,
    ⟨_, rfl, rfl, rfl, hcP⟩, e2P, rfl, rfl,
    OssTldr.get_issues_section_empty_db rid nextId tf [] now s1 e1 hres1, rfl,
    ⟨_, rfl, rfl, rfl, hcI⟩, e2I, rfl, rfl⟩

/-- C4 witness: the amended behaviour at repository 1, `last_week`,
both requests at time 0. -/
theorem C4_witness :
    ∃ res1 res2 res3 res4,
      OssTldr.get_prs_section [] 1 "last_week" false [] 1 0 = .ok res1 ∧
      res1.cached = false ∧
      (∃ r, res1.db = [r] ∧ r.prs = some [] ∧ r.prs_generated_at = some 0 ∧
        OssTldr.get_cached_section res1.db 1 "last_week" OssTldr.SectionType.prs false 0 =
          some []) ∧
      OssTldr.get_prs_section res1.db 1 "last_week" false [] 1 0 = .ok res2 ∧
      res2.cached = false ∧ res2.writes = [(1, OssTldr.SectionType.prs)] ∧
      OssTldr.get_issues_section [] 1 "last_week" false [] 1 0 = .ok res3 ∧
      res3.cached = false ∧
      (∃ r, res3.db = [r] ∧ r.issues = some [] ∧ r.issues_generated_at = some 0 ∧
        OssTldr.get_cached_section res3.db 1 "last_week" OssTldr.SectionType.issues false 0 =
          some []) ∧
      OssTldr.get_issues_section res3.db 1 "last_week" false [] 1 0 = .ok res4 ∧
      res4.cached = false ∧ res4.writes = [(1, OssTldr.SectionType.issues)] :=
  C4_empty_activity_not_a_cache_hit 1 1 "last_week" 0 0
    (Or.inr (Or.inl rfl)) (by decide)

namespace OssTldr

/-- The per-contributor accumulator of `generate_people_summaries`:
the `defaultdict` value shape. -/
structure Contributor where
  username : String
  avatar_url : String
  profile_url : String
  prs : List GitHubItem
  issues : List GitHubItem
deriving DecidableEq, Repr

/-- The `defaultdict` default: empty identity, no items. -/
def defaultContributor : Contributor :=
  { username := "", avatar_url := "", profile_url := "", prs := [], issues := [] }

/-- Mutate the entry of `k` in an insertion-ordered dict (Python dicts keep
insertion order; `defaultdict` materialises a default entry, at the end, on
first access). -/
def updateAssoc (m : List (String × Contributor)) (k : String)
    (f : Contributor → Contributor) : List (String × Contributor) :=
  match m with
  | [] => [(k, f defaultContributor)]
  | (k0, v) :: rest =>
    if k0 = k then (k0, f v) :: rest else (k0, v) :: updateAssoc rest k f

/-- `if not contributors[username]["username"]:` — fill the identity fields
from the first item seen for this author (empty string is falsy). -/
def fillIdentity (login avatar profile : String) (c : Contributor) : Contributor :=
  if c.username = "" then
    { c with username := login, avatar_url := avatar, profile_url := profile }
  else c

/-- The loop body of the `Add PRs` loop. -/
def prMut (pr : GitHubItem) (c : Contributor) : Contributor :=
  let c2 := fillIdentity pr.user.login pr.user.avatar_url pr.user.html_url c
  { c2 with prs := c2.prs ++ [pr] }

/-- The loop body of the `Add issues` loop. -/
def issueMut (issue : GitHubItem) (c : Contributor) : Contributor :=
  let c2 := fillIdentity issue.user.login issue.user.avatar_url issue.user.html_url c
  { c2 with issues := c2.issues ++ [issue] }

def addPr (m : List (String × Contributor)) (pr : GitHubItem) :
    List (String × Contributor) :=
  updateAssoc m pr.user.login (prMut pr)

def addIssue (m : List (String × Contributor)) (issue : GitHubItem) :
    List (String × Contributor) :=
  updateAssoc m issue.user.login (issueMut issue)

/-- `config.py::MAX_ITEMS_PER_SECTION` (default 10). -/
def MAX_ITEMS_PER_SECTION : Nat := 10

/-- One element of the `people_summaries` list: per-contributor digest.
The aggregator (`tldr(..., stream=False)`) is the parameter `agg`; a raised
exception is modelled as `none` and absorbed into an empty digest, as is a
falsy (empty) digest. -/
def mkPersonSummary (agg : String → Option String) (c : Contributor) :
    PersonSummary :=
  let all_items := c.prs.take MAX_ITEMS_PER_SECTION ++
    c.issues.take MAX_ITEMS_PER_SECTION
  let tldr_text : Option String :=
    if all_items.isEmpty then none
    else
      let summaries := all_items.filterMap summaryKept
      if summaries.isEmpty then none
      else agg (String.intercalate "\n" summaries)
  { username := c.username, avatar_url := c.avatar_url,
    profile_url := c.profile_url, tldr := tldr_text.getD "",
    prs := c.prs, issues := c.issues,
    total_items := c.prs.length + c.issues.length }

/-- `people_summaries.sort(key=lambda x: x["total_items"], reverse=True)`:
descending by total item count.  Python's sort is stable; the stable sort
is rendered by `List.insertionSort` below. -/
abbrev peopleOrder (a b : PersonSummary) : Prop := b.total_items ≤ a.total_items

instance : IsTotal PersonSummary peopleOrder :=
  ⟨fun a b => le_total b.total_items a.total_items⟩

instance : IsTrans PersonSummary peopleOrder :=
  ⟨fun _ _ _ h1 h2 => le_trans h2 h1⟩

/-- Embedding of `services/people_summary.py::generate_people_summaries`:
group the already-summarized PRs and issues by author login (insertion
order), build one digest record per author, sort by total item count
descending (stable) and keep the top 5. -/
def generate_people_summaries (agg : String → Option String)
    (prs issues : List GitHubItem) : List PersonSummary :=
  let contributors := issues.foldl addIssue (prs.foldl addPr [])
  let people_summaries := contributors.map (fun kv => mkPersonSummary agg kv.2)
  (List.insertionSort peopleOrder people_summaries).take 5

end OssTldr

namespace OssTldr

/-- Dict lookup on the insertion-ordered association list. -/
def lookupC : List (String × Contributor) → String → Option Contributor
  | [], _ => none
  | (k0, v) :: rest, k => if k0 = k then some v else lookupC rest k

theorem lookupC_updateAssoc_same (m : List (String × Contributor)) (k : String)
    (f : Contributor → Contributor) :
    lookupC (updateAssoc m k f) k =
      some (f ((lookupC m k).getD defaultContributor)) := by
  induction m with
  | nil => simp [updateAssoc, lookupC]
  | cons q rest ih =>
    obtain ⟨k0, v⟩ := q
    by_cases h : k0 = k
    · subst h
      simp [updateAssoc, lookupC]
    · simp [updateAssoc, lookupC, h, ih]

theorem lookupC_updateAssoc_other (m : List (String × Contributor)) (k : String)
    (f : Contributor → Contributor) (k2 : String) (h : k2 ≠ k) :
    lookupC (updateAssoc m k f) k2 = lookupC m k2 := by
  induction m with
  | nil =>
    simp only [updateAssoc, lookupC]
    rw [if_neg (fun he => h he.symm)]
  | cons q rest ih =>
    obtain ⟨k0, v⟩ := q
    by_cases hk : k0 = k
    · subst hk
      simp only [updateAssoc, if_pos rfl, lookupC]
      rw [if_neg (fun he => h he.symm), if_neg (fun he => h he.symm)]
    · simp only [updateAssoc, if_neg hk, lookupC, ih]

theorem fillIdentity_prs (a b d : String) (c : Contributor) :
    (fillIdentity a b d c).prs = c.prs := by
  unfold fillIdentity
  split <;> rfl

theorem fillIdentity_issues (a b d : String) (c : Contributor) :
    (fillIdentity a b d c).issues = c.issues := by
  unfold fillIdentity
  split <;> rfl

theorem prMut_prs (pr : GitHubItem) (c : Contributor) :
    (prMut pr c).prs = c.prs ++ [pr] := by
  simp [prMut, fillIdentity_prs]

theorem prMut_issues (pr : GitHubItem) (c : Contributor) :
    (prMut pr c).issues = c.issues := by
  simp [prMut, fillIdentity_issues]

theorem issueMut_issues (issue : GitHubItem) (c : Contributor) :
    (issueMut issue c).issues = c.issues ++ [issue] := by
  simp [issueMut, fillIdentity_issues]

theorem issueMut_prs (issue : GitHubItem) (c : Contributor) :
    (issueMut issue c).prs = c.prs := by
  simp [issueMut, fillIdentity_prs]

theorem foldl_addPr_prs (l : List GitHubItem) (m : List (String × Contributor))
    (k : String) :
    ((lookupC (l.foldl addPr m) k).getD defaultContributor).prs =
      ((lookupC m k).getD defaultContributor).prs ++
        l.filter (fun p => p.user.login == k) := by
  induction l generalizing m with
  | nil => simp
  | cons pr rest ih =>
    rw [List.foldl_cons, ih]
    by_cases h : pr.user.login = k
    · rw [List.filter_cons_of_pos (by simp [h]), addPr, h, lookupC_updateAssoc_same]
      simp [prMut_prs]
    · rw [List.filter_cons_of_neg (by simp [h]), addPr,
        lookupC_updateAssoc_other _ _ _ _ (fun he => h he.symm)]

theorem foldl_addPr_issues (l : List GitHubItem) (m : List (String × Contributor))
    (k : String) :
    ((lookupC (l.foldl addPr m) k).getD defaultContributor).issues =
      ((lookupC m k).getD defaultContributor).issues := by
  induction l generalizing m with
  | nil => rfl
  | cons pr rest ih =>
    rw [List.foldl_cons, ih]
    by_cases h : pr.user.login = k
    · rw [addPr, h, lookupC_updateAssoc_same]
      simp [prMut_issues]
    · rw [addPr, lookupC_updateAssoc_other _ _ _ _ (fun he => h he.symm)]

theorem foldl_addIssue_issues (l : List GitHubItem) (m : List (String × Contributor))
    (k : String) :
    ((lookupC (l.foldl addIssue m) k).getD defaultContributor).issues =
      ((lookupC m k).getD defaultContributor).issues ++
        l.filter (fun p => p.user.login == k) := by
  induction l generalizing m with
  | nil => simp
  | cons issue rest ih =>
    rw [List.foldl_cons, ih]
    by_cases h : issue.user.login = k
    · rw [List.filter_cons_of_pos (by simp [h]), addIssue, h, lookupC_updateAssoc_same]
      simp [issueMut_issues]
    · rw [List.filter_cons_of_neg (by simp [h]), addIssue,
        lookupC_updateAssoc_other _ _ _ _ (fun he => h he.symm)]

theorem foldl_addIssue_prs (l : List GitHubItem) (m : List (String × Contributor))
    (k : String) :
    ((lookupC (l.foldl addIssue m) k).getD defaultContributor).prs =
      ((lookupC m k).getD defaultContributor).prs := by
  induction l generalizing m with
  | nil => rfl
  | cons issue rest ih =>
    rw [List.foldl_cons, ih]
    by_cases h : issue.user.login = k
    · rw [addIssue, h, lookupC_updateAssoc_same]
      simp [issueMut_prs]
    · rw [addIssue, lookupC_updateAssoc_other _ _ _ _ (fun he => h he.symm)]

end OssTldr

namespace OssTldr

theorem updateAssoc_forall (P : String → Contributor → Prop)
    (m : List (String × Contributor)) (k : String) (f : Contributor → Contributor)
    (h : ∀ p ∈ m, P p.1 p.2) (hnew : P k (f defaultContributor))
    (hupd : ∀ v, P k v → P k (f v)) :
    ∀ p ∈ updateAssoc m k f, P p.1 p.2 := by
  induction m with
  | nil =>
    intro p hp
    simp only [updateAssoc, List.mem_singleton] at hp
    subst hp
    exact hnew
  | cons q rest ih =>
    obtain ⟨k0, v⟩ := q
    intro p hp
    by_cases hk : k0 = k
    · subst hk
      have hrw : updateAssoc ((k0, v) :: rest) k0 f = (k0, f v) :: rest := by
        simp [updateAssoc]
      rw [hrw] at hp
      rcases List.mem_cons.mp hp with he | hm
      · subst he
        exact hupd v (h (k0, v) (List.mem_cons_self _ _))
      · exact h p (List.mem_cons_of_mem _ hm)
    · have hrw : updateAssoc ((k0, v) :: rest) k f = (k0, v) :: updateAssoc rest k f := by
        simp [updateAssoc, hk]
      rw [hrw] at hp
      rcases List.mem_cons.mp hp with he | hm
      · subst he
        exact h (k0, v) (List.mem_cons_self _ _)
      · exact ih (fun q hq => h q (List.mem_cons_of_mem _ hq)) p hm

theorem prMut_username_keep (pr : GitHubItem) (v : Contributor)
    (h : v.username = pr.user.login) :
    (prMut pr v).username = pr.user.login := by
  by_cases he : v.username = ""
  · simp [prMut, fillIdentity, he]
  · simp only [prMut, fillIdentity, if_neg he]
    exact h

theorem prMut_username_default (pr : GitHubItem) :
    (prMut pr defaultContributor).username = pr.user.login := by
  simp [prMut, fillIdentity, defaultContributor]

theorem issueMut_username_keep (issue : GitHubItem) (v : Contributor)
    (h : v.username = issue.user.login) :
    (issueMut issue v).username = issue.user.login := by
  by_cases he : v.username = ""
  · simp [issueMut, fillIdentity, he]
  · simp only [issueMut, fillIdentity, if_neg he]
    exact h

theorem issueMut_username_default (issue : GitHubItem) :
    (issueMut issue defaultContributor).username = issue.user.login := by
  simp [issueMut, fillIdentity, defaultContributor]

theorem foldl_addPr_username (l : List GitHubItem)
    (m : List (String × Contributor)) (h : ∀ p ∈ m, p.2.username = p.1) :
    ∀ p ∈ l.foldl addPr m, p.2.username = p.1 := by
  induction l generalizing m with
  | nil => exact h
  | cons pr rest ih =>
    rw [List.foldl_cons]
    exact ih _ (updateAssoc_forall (fun k c => c.username = k) m pr.user.login
      (prMut pr) h (prMut_username_default pr)
      (fun v hv => prMut_username_keep pr v hv))

theorem foldl_addIssue_username (l : List GitHubItem)
    (m : List (String × Contributor)) (h : ∀ p ∈ m, p.2.username = p.1) :
    ∀ p ∈ l.foldl addIssue m, p.2.username = p.1 := by
  induction l generalizing m with
  | nil => exact h
  | cons issue rest ih =>
    rw [List.foldl_cons]
    exact ih _ (updateAssoc_forall (fun k c => c.username = k) m issue.user.login
      (issueMut issue) h (issueMut_username_default issue)
      (fun v hv => issueMut_username_keep issue v hv))

theorem updateAssoc_keys (m : List (String × Contributor)) (k : String)
    (f : Contributor → Contributor) :
    (updateAssoc m k f).map Prod.fst =
      if k ∈ m.map Prod.fst then m.map Prod.fst else m.map Prod.fst ++ [k] := by
  induction m with
  | nil => simp [updateAssoc]
  | cons q rest ih =>
    obtain ⟨k0, v⟩ := q
    by_cases h : k0 = k
    · subst h
      simp [updateAssoc]
    · have hkk : ¬ k = k0 := fun he => h he.symm
      by_cases hm : k ∈ rest.map Prod.fst
      · simp [updateAssoc, h, ih, hm, hkk]
      · simp [updateAssoc, h, ih, hm, hkk]

theorem updateAssoc_nodup (m : List (String × Contributor)) (k : String)
    (f : Contributor → Contributor) (h : (m.map Prod.fst).Nodup) :
    ((updateAssoc m k f).map Prod.fst).Nodup := by
  rw [updateAssoc_keys]
  by_cases hm : k ∈ m.map Prod.fst
  · simpa [hm] using h
  · simp [hm, List.nodup_append, h]

theorem foldl_addPr_nodup (l : List GitHubItem) (m : List (String × Contributor))
    (h : (m.map Prod.fst).Nodup) :
    (((l.foldl addPr m)).map Prod.fst).Nodup := by
  induction l generalizing m with
  | nil => exact h
  | cons pr rest ih =>
    rw [List.foldl_cons]
    exact ih _ (updateAssoc_nodup m pr.user.login (prMut pr) h)

theorem foldl_addIssue_nodup (l : List GitHubItem) (m : List (String × Contributor))
    (h : (m.map Prod.fst).Nodup) :
    (((l.foldl addIssue m)).map Prod.fst).Nodup := by
  induction l generalizing m with
  | nil => exact h
  | cons issue rest ih =>
    rw [List.foldl_cons]
    exact ih _ (updateAssoc_nodup m issue.user.login (issueMut issue) h)

theorem lookupC_of_mem_nodup (m : List (String × Contributor))
    (hnd : (m.map Prod.fst).Nodup) (k : String) (c : Contributor)
    (hm : (k, c) ∈ m) : lookupC m k = some c := by
  induction m with
  | nil => cases hm
  | cons q rest ih =>
    obtain ⟨k0, v⟩ := q
    rcases List.mem_cons.mp hm with he | hm2
    · cases he
      simp [lookupC]
    · have hk0 : k0 ≠ k := by
        intro heq
        subst heq
        have hin : k0 ∈ rest.map Prod.fst := List.mem_map_of_mem Prod.fst hm2
        exact (List.nodup_cons.mp (by simpa using hnd)).1 hin
      simp only [lookupC, if_neg hk0]
      exact ih (List.nodup_cons.mp (by simpa using hnd)).2 hm2

/-- A user with the given login (identity fields irrelevant to grouping). -/
def exampleUser (login : String) : GithubUser :=
  { login := login, id := 1, avatar_url := "", html_url := "" }

/-- A summarized PR authored by `login`. -/
def examplePr (login : String) (n : Nat) : GitHubItem :=
  { id := n, number := n, title := "", body := "", user := exampleUser login,
    html_url := "", state := "open", comments := 0, reactions := 0, labels := [],
    is_pull_request := true }

/-- A summarized issue authored by `login`. -/
def exampleIssue (login : String) (n : Nat) : GitHubItem :=
  { id := n, number := n, title := "", body := "", user := exampleUser login,
    html_url := "", state := "open", comments := 0, reactions := 0, labels := [],
    is_pull_request := false }

end OssTldr

/-- C5: for every input pair of summarized PR and issue lists,
`generate_people_summaries` groups items by author login — each returned
author's `prs`/`issues` are exactly the input items bearing their login, in
order — records the author's `total_items` as the number of their PRs plus
the number of their issues, sorts authors by total item count descending,
and returns at most 5 authors; on PRs {alice: 2, bob: 1} and issues
{alice: 1} it ranks alice (3 items) above bob (1 item). -/
theorem C5_people_grouping (agg : String → Option String)
    (prs issues : List OssTldr.GitHubItem) :
    (OssTldr.generate_people_summaries agg prs issues).length ≤ 5 ∧
    (OssTldr.generate_people_summaries agg prs issues).Pairwise OssTldr.peopleOrder ∧
    (∀ e ∈ OssTldr.generate_people_summaries agg prs issues,
      e.prs = prs.filter (fun p => p.user.login == e.username) ∧
      e.issues = issues.filter (fun p => p.user.login == e.username) ∧
      e.total_items =
        (prs.filter (fun p => p.user.login == e.username)).length +
          (issues.filter (fun p => p.user.login == e.username)).length) ∧
    (OssTldr.generate_people_summaries (fun _ => none)
        [OssTldr.examplePr "alice" 1, OssTldr.examplePr "alice" 2,
          OssTldr.examplePr "bob" 3]
        [OssTldr.exampleIssue "alice" 4]).map
      (fun e => (e.username, e.total_items)) = [("alice", 3), ("bob", 1)] := by
  refine ⟨?_, ?_, ?_, ?_⟩
  · simp only [OssTldr.generate_people_summaries]
    exact List.length_take_le 5 _
  · simp only [OssTldr.generate_people_summaries]
    exact List.Pairwise.sublist (List.take_sublist _ _)
      (List.sorted_insertionSort OssTldr.peopleOrder _)
  · intro e he
    simp only [OssTldr.generate_people_summaries] at he
    have he2 := List.take_subset _ _ he
    have he3 := (List.perm_insertionSort OssTldr.peopleOrder _).mem_iff.mp he2
    obtain ⟨⟨k, c⟩, hmem, hmk⟩ := List.mem_map.mp he3
    have husr : c.username = k :=
      OssTldr.foldl_addIssue_username issues (prs.foldl OssTldr.addPr [])
        (OssTldr.foldl_addPr_username prs []
          (fun p hp => absurd hp (List.not_mem_nil _))) (k, c) hmem
    have hnd :=
      OssTldr.foldl_addIssue_nodup issues (prs.foldl OssTldr.addPr [])
        (OssTldr.foldl_addPr_nodup prs [] List.nodup_nil)
    have hl := OssTldr.lookupC_of_mem_nodup _ hnd k c hmem
    have hprsC : c.prs = prs.filter (fun p => p.user.login == k) := by
      have h1 := OssTldr.foldl_addIssue_prs issues (prs.foldl OssTldr.addPr []) k
      have h2 := OssTldr.foldl_addPr_prs prs [] k
      have hc : c.prs =
          ((OssTldr.lookupC (prs.foldl OssTldr.addPr []) k).getD
            OssTldr.defaultContributor).prs := by
        rw [← h1, hl]
        rfl
      rw [hc, h2]
      simp [OssTldr.lookupC, OssTldr.defaultContributor]
    have hissC : c.issues = issues.filter (fun p => p.user.login == k) := by
      have h3 := OssTldr.foldl_addIssue_issues issues (prs.foldl OssTldr.addPr []) k
      have h4 := OssTldr.foldl_addPr_issues prs [] k
      rw [hl] at h3
      simp only [Option.getD_some] at h3
      rw [h3, h4]
      simp [OssTldr.lookupC, OssTldr.defaultContributor]
    subst hmk
    refine ⟨?_, ?_, ?_⟩
    · show c.prs = prs.filter (fun p => p.user.login == c.username)
      rw [husr, hprsC]
    · show c.issues = issues.filter (fun p => p.user.login == c.username)
      rw [husr, hissC]
    · show c.prs.length + c.issues.length =
        (prs.filter (fun p => p.user.login == c.username)).length +
          (issues.filter (fun p => p.user.login == c.username)).length
      rw [husr, hprsC, hissC]
  · decide

/-- C5 witness: the grouping theorem applied to the alice/bob example
input. -/
theorem C5_witness :
    (OssTldr.generate_people_summaries (fun _ => none)
      [OssTldr.examplePr "alice" 1, OssTldr.examplePr "alice" 2,
        OssTldr.examplePr "bob" 3]
      [OssTldr.exampleIssue "alice" 4]).length ≤ 5 :=
  (C5_people_grouping (fun _ => none)
    [OssTldr.examplePr "alice" 1, OssTldr.examplePr "alice" 2,
      OssTldr.examplePr "bob" 3]
    [OssTldr.exampleIssue "alice" 4]).1
